import Mathlib

/-!
Verification of the movie browsing/filtering application (src/main_app.py).

The application loads a movie table (remote JSON with a fixed fallback on
any failure), filters it by a year range, a selected genre set and a
case-insensitive title substring, shows a uniformly random pick from the
filtered view, and computes a genre frequency histogram.

Shallow embedding conventions:
  - a pandas DataFrame is a `MovieCollection`: the ordered list of rows plus
    flags recording which optional columns exist (a column can exist while a
    given cell is NaN, e.g. when the source JSON held an explicit null);
  - a NaN cell is `Option.none`; a `genres` cell that exists but is not a
    Python list (so fails the `isinstance(x, list)` checks) is `GVal.nonList`;
  - a computation that would raise an uncaught exception is modelled as
    returning `Option.none`;
  - the pandas call `Series.str.contains(term, case=False, na=False)`
    interprets the term as a regular expression (pandas default regex=True);
    the regex behaviour of that call is embedded below (`reCompile`,
    `reSearch`) for the pattern fragment of literal characters and the
    metacharacter '.', together with the invalid pattern "(" on which
    re.compile raises; `containsCI` is the literal substring reading of the
    term, which coincides with the regex behaviour exactly for terms free of
    regex metacharacters.
-/

/-- Value of the `genres` cell of a row: absent (NaN), a list of labels, or
some non-list value (which every `isinstance(x, list)` check rejects). -/
inductive GVal where
  | absent : GVal
  | list (labels : List String) : GVal
  | nonList : GVal
deriving DecidableEq, Repr

/-- One row of the movie table (columns used by the program; further columns
of the source data are ignored by every operation, so they are omitted). -/
structure MovieRecord where
  title : Option String
  year : Option Int
  genres : GVal
  cast : Option (List String)
deriving DecidableEq, Repr

/-- A loaded movie table: the rows in source order, plus which of the
optional columns `year` and `genres` exist in the DataFrame. -/
structure MovieCollection where
  records : List MovieRecord
  hasYearCol : Bool
  hasGenresCol : Bool
deriving DecidableEq, Repr

/-- Outcome of the remote fetch and JSON parse (external to the program):
either a parsed collection or any exception. -/
inductive FetchResult where
  | ok (c : MovieCollection) : FetchResult
  | failure : FetchResult

/-- Helper to build a fallback row: title, year and genres populated, no cast. -/
def mkFallbackRow (t : String) (y : Int) (gs : List String) : MovieRecord :=
  { title := some t, year := some y, genres := GVal.list gs, cast := none }

/-- The fixed fallback collection built at src/main_app.py lines 30-39: ten
hardcoded movies with `title`, `year` and `genres` columns and no `cast`. -/
def fallbackMovies : MovieCollection :=
  { records :=
      [ mkFallbackRow "The Shawshank Redemption" 1994 ["Drama"]
      , mkFallbackRow "The Godfather" 1972 ["Crime", "Drama"]
      , mkFallbackRow "The Dark Knight" 2008 ["Action", "Drama"]
      , mkFallbackRow "Pulp Fiction" 1994 ["Crime", "Drama"]
      , mkFallbackRow "Forrest Gump" 1994 ["Drama", "Romance"]
      , mkFallbackRow "Inception" 2010 ["Action", "Sci-Fi"]
      , mkFallbackRow "The Matrix" 1999 ["Action", "Sci-Fi"]
      , mkFallbackRow "Goodfellas" 1990 ["Crime", "Drama"]
      , mkFallbackRow "The Silence of the Lambs" 1991 ["Crime", "Thriller"]
      , mkFallbackRow "Interstellar" 2014 ["Adventure", "Drama", "Sci-Fi"]
      ]
  , hasYearCol := true
  , hasGenresCol := true }

/-- Embeds `load_movie_data` (src/main_app.py lines 18-39): return the
fetched collection, and on any exception return the fallback collection.
The function is total: no exception escapes to the caller. -/
def load_movie_data (f : FetchResult) : MovieCollection :=
  match f with
  | FetchResult.ok c => c
  | FetchResult.failure => fallbackMovies

/-- Year predicate of lines 56-59: the pandas comparisons
`(df.year >= lo) & (df.year <= hi)` are False on a NaN year, so a row with
an absent year is excluded. -/
def yearPred (lo hi : Int) (r : MovieRecord) : Bool :=
  match r.year with
  | some y => decide (lo ≤ y) && decide (y ≤ hi)
  | none => false

/-- Year filter stage (lines 49-61): applied only when the `year` column
exists, otherwise every row passes. -/
def year_filter (c : MovieCollection) (lo hi : Int) : List MovieRecord :=
  if c.hasYearCol then c.records.filter (yearPred lo hi) else c.records

/-- Embeds lines 50-51, `int(df.year.min())` and `int(df.year.max())`:
bounds of the year slider. When no row has a present year the pandas min
and max are NaN and `int(NaN)` raises; that exception is `none`. -/
def yearBounds (rows : List MovieRecord) : Option (Int × Int) :=
  match rows.filterMap (fun r => r.year) with
  | [] => none
  | y :: ys => some (ys.foldl min y, ys.foldl max y)

/-- Embeds the whole sidebar year section (lines 49-61): when the `year`
column exists the slider bounds are computed first (raising, i.e. `none`,
when `int(NaN)` would raise), then the year filter is applied; when the
column is absent the rows pass unchanged. -/
def sidebarYearStep (c : MovieCollection) (lo hi : Int) :
    Option (List MovieRecord) :=
  if c.hasYearCol then
    match yearBounds c.records with
    | none => none
    | some _ => some (c.records.filter (yearPred lo hi))
  else
    some c.records

/-- Embeds the `all_genres` accumulation of lines 65-68: every label of a
list-typed `genres` cell, in first-encountered order without duplicates
(the source keeps a Python set; only membership and emptiness of this
value are ever used by the logic modelled here). -/
def all_genres (c : MovieCollection) : List String :=
  c.records.foldl
    (fun acc r =>
      match r.genres with
      | GVal.list gs => acc ++ gs.filter (fun g => !acc.contains g)
      | _ => acc)
    []

/-- Genre row predicate of lines 79-82:
`any(genre in x for genre in selected_genres) if isinstance(x, list) else False`. -/
def genrePred (selected : List String) (r : MovieRecord) : Bool :=
  match r.genres with
  | GVal.list gs => selected.any (fun g => gs.contains g)
  | _ => false

/-- Genre filter stage (lines 64-83): applied only when the `genres` column
exists, the option set `all_genres` is non-empty (otherwise the multiselect
widget is never created) and some genres are selected; otherwise the rows
pass unchanged. -/
def genre_filter (c : MovieCollection) (selected : List String)
    (rows : List MovieRecord) : List MovieRecord :=
  if c.hasGenresCol && !(all_genres c).isEmpty && !selected.isEmpty then
    rows.filter (genrePred selected)
  else
    rows

/-- Does `hay` start with `needle` (on character lists)? -/
def startsWithChars : List Char → List Char → Bool
  | _, [] => true
  | [], _ :: _ => false
  | h :: hs, n :: ns => h == n && startsWithChars hs ns

/-- Is `needle` an infix of `hay` (on character lists)? -/
def containsChars : List Char → List Char → Bool
  | [], needle => needle.isEmpty
  | h :: hs, needle => startsWithChars (h :: hs) needle || containsChars hs needle

/-- Case-insensitive literal substring containment: both sides are
lowercased character-wise and compared for infix containment. This is the
literal reading of the search term; `str.contains(term, case=False)`
treats the term as a regular expression (see `reCompile` and `reSearch`
below), and the two coincide exactly for terms free of regex
metacharacters. -/
def containsCI (hay needle : String) : Bool :=
  containsChars (hay.data.map Char.toLower) (needle.data.map Char.toLower)

/-- Title row predicate of line 91: `na=False` makes a row with an absent
title fail the predicate instead of erroring. -/
def titlePred (term : String) (r : MovieRecord) : Bool :=
  match r.title with
  | some t => containsCI t term
  | none => false

/-- Title search stage (lines 87-92): `if search_term:` skips the stage for
the empty search string (Python falsiness), otherwise rows whose title
contains the term case-insensitively are kept. -/
def title_filter (term : String) (rows : List MovieRecord) : List MovieRecord :=
  if term.isEmpty then rows else rows.filter (titlePred term)

/-- One token of the regular-expression fragment embedded below: a literal
character, or the metacharacter '.' of Python re. -/
inductive RTok where
  | lit (c : Char) : RTok
  | dot : RTok
deriving DecidableEq, Repr

/-- The characters the Python re module treats as metacharacters (re
documentation, "special characters"). -/
def reMetachars : List Char :=
  ['.', '^', '$', '*', '+', '?', '{', '}', '[', ']', '\\', '|', '(', ')']

/-- Outcome of compiling a search term as a regular expression. -/
inductive ReCompileResult where
  | compiled (toks : List RTok) : ReCompileResult
  | invalid : ReCompileResult
  | outsideFragment : ReCompileResult
deriving DecidableEq, Repr

/-- Modelled from the Python re documentation (re is the library behind
pandas `str.contains`, whose default is regex=True): compilation of a
pattern within the fragment of literal characters and the metacharacter
'.' (which matches any character except a newline). The single pattern
"(" is invalid — an unterminated group, on which re.compile raises
re.error. Patterns using any other metacharacter are outside the modelled
fragment and no theorem below concerns them. -/
def reCompile (pat : String) : ReCompileResult :=
  if pat.data.all (fun c => c == '.' || !reMetachars.contains c) then
    ReCompileResult.compiled
      (pat.data.map (fun c => if c == '.' then RTok.dot else RTok.lit c))
  else if pat == "(" then
    ReCompileResult.invalid
  else
    ReCompileResult.outsideFragment

/-- Match of one pattern token against one character under re.IGNORECASE
(the effect of case=False): a literal matches both cases, '.' matches any
character except a newline. -/
def rtokMatch (t : RTok) (c : Char) : Bool :=
  match t with
  | RTok.lit l => c.toLower == l.toLower
  | RTok.dot => c != '\n'

/-- Does the token list match a prefix of the character list? -/
def reMatchHere : List RTok → List Char → Bool
  | [], _ => true
  | _ :: _, [] => false
  | t :: ts, c :: cs => rtokMatch t c && reMatchHere ts cs

/-- Modelled from the Python re documentation, re.search (which pandas
`str.contains` uses): does the pattern match at some position of the
string? -/
def reSearch : List RTok → List Char → Bool
  | toks, [] => reMatchHere toks []
  | toks, c :: cs => reMatchHere toks (c :: cs) || reSearch toks cs

/-- Embeds the title stage of line 91 under the pandas default regex=True:
the search term is compiled as a regular expression and matched with
re.search case-insensitively, with `na=False` excluding rows whose title
is absent; `none` models an exception escaping line 91 (re.error on an
invalid pattern), or a pattern outside the modelled fragment. -/
def title_filter_re (term : String) (rows : List MovieRecord) :
    Option (List MovieRecord) :=
  if term.isEmpty then
    some rows
  else
    match reCompile term with
    | ReCompileResult.compiled toks =>
        some (rows.filter (fun r =>
          match r.title with
          | some t => reSearch toks t.data
          | none => false))
    | ReCompileResult.invalid => none
    | ReCompileResult.outsideFragment => none

/-- A one-record list whose title is "abc", for exercising the title stage. -/
def abcTitled : MovieRecord :=
  { title := some "abc", year := none, genres := GVal.absent, cast := none }

/-- The full filter pipeline producing `filtered_movies` (lines 49-92):
year stage, then genre stage, then title stage. -/
def filtered_movies (c : MovieCollection) (lo hi : Int)
    (selected : List String) (term : String) : List MovieRecord :=
  title_filter term (genre_filter c selected (year_filter c lo hi))

/-- Result of the random-pick button: a movie, or the
"No movies found with current filters!" warning. -/
inductive PickResult where
  | movie (r : MovieRecord) : PickResult
  | emptyWarning : PickResult
deriving DecidableEq, Repr

/-- Embeds the random pick of lines 132-146: when the filtered view is
non-empty, `sample(1).iloc[0]` draws one row (the draw of the random
source is the parameter `k`, reduced modulo the length); when it is empty
the warning is shown and no row is returned. -/
def random_movie (view : List MovieRecord) (k : Nat) : PickResult :=
  if h : 0 < view.length then
    PickResult.movie (view.get ⟨k % view.length, Nat.mod_lt k h⟩)
  else
    PickResult.emptyWarning

/-- One dictionary update `genre_counts[g] = genre_counts.get(g, 0) + 1`
(line 170) on an insertion-ordered association list. -/
def bumpCount : List (String × Nat) → String → List (String × Nat)
  | [], g => [(g, 1)]
  | (k, n) :: t, g => if k = g then (k, n + 1) :: t else (k, n) :: bumpCount t g

/-- Embeds the `genre_counts` accumulation of lines 164-170: over the full
collection, each label of each list-typed `genres` cell contributes one
count; NaN cells are dropped by `dropna()` and non-list cells are skipped
by `isinstance`. Computed only when the `genres` column exists. -/
def genre_counts (c : MovieCollection) : List (String × Nat) :=
  if c.hasGenresCol then
    c.records.foldl
      (fun acc r =>
        match r.genres with
        | GVal.list gs => gs.foldl bumpCount acc
        | _ => acc)
      []
  else
    []

/-- Total number of (record, genre) pairs: the sum, over rows whose
`genres` cell is list-typed, of the length of that list. -/
def totalGenrePairs (c : MovieCollection) : Nat :=
  c.records.foldl
    (fun n r =>
      match r.genres with
      | GVal.list gs => n + gs.length
      | _ => n)
    0

/-- Sum of the counts of a genre histogram. -/
def sumCounts (l : List (String × Nat)) : Nat :=
  (l.map (fun p => p.2)).sum

/-- The user-chosen filter criteria of one interaction: slider year range,
multiselect genre set, text search term. -/
structure Criteria where
  yearLo : Int
  yearHi : Int
  selected : List String
  term : String
deriving DecidableEq, Repr

/-- One full re-run of the script for a user interaction: the filtered view
together with the random-pick result, where `k` is the draw taken from the
random source on this run (the only non-input the script reads). -/
def appRun (c : MovieCollection) (cr : Criteria) (k : Nat) :
    List MovieRecord × PickResult :=
  let view := filtered_movies c cr.yearLo cr.yearHi cr.selected cr.term
  (view, random_movie view k)

/-! ### Helper lemmas -/

theorem foldl_min_le_init (ys : List Int) (a : Int) : ys.foldl min a ≤ a := by
  induction ys generalizing a with
  | nil => exact le_refl a
  | cons y ys ih => exact le_trans (ih (min a y)) (min_le_left a y)

theorem foldl_min_le_mem (ys : List Int) (a y : Int) (hy : y ∈ ys) :
    ys.foldl min a ≤ y := by
  induction ys generalizing a with
  | nil => cases hy
  | cons y0 ys ih =>
    rcases List.mem_cons.mp hy with h | h
    · subst h
      exact le_trans (foldl_min_le_init ys (min a y)) (min_le_right a y)
    · exact ih (min a y0) h

theorem le_foldl_max_init (ys : List Int) (a : Int) : a ≤ ys.foldl max a := by
  induction ys generalizing a with
  | nil => exact le_refl a
  | cons y ys ih => exact le_trans (le_max_left a y) (ih (max a y))

theorem mem_le_foldl_max (ys : List Int) (a y : Int) (hy : y ∈ ys) :
    y ≤ ys.foldl max a := by
  induction ys generalizing a with
  | nil => cases hy
  | cons y0 ys ih =>
    rcases List.mem_cons.mp hy with h | h
    · subst h
      exact le_trans (le_max_right a y) (le_foldl_max_init ys (max a y))
    · exact ih (max a y0) h

theorem yearBounds_bounds_mem (rows : List MovieRecord) (mn mx y : Int)
    (hb : yearBounds rows = some (mn, mx))
    (hy : y ∈ rows.filterMap (fun r => r.year)) : mn ≤ y ∧ y ≤ mx := by
  unfold yearBounds at hb
  cases hl : rows.filterMap (fun r => r.year) with
  | nil => rw [hl] at hy; cases hy
  | cons y0 ys =>
    rw [hl] at hb hy
    have hmn : ys.foldl min y0 = mn := by
      have := (Option.some.injEq _ _).mp hb
      exact congrArg Prod.fst this
    have hmx : ys.foldl max y0 = mx := by
      have := (Option.some.injEq _ _).mp hb
      exact congrArg Prod.snd this
    rcases List.mem_cons.mp hy with h | h
    · subst h
      exact ⟨hmn ▸ foldl_min_le_init ys y, hmx ▸ le_foldl_max_init ys y⟩
    · exact ⟨hmn ▸ foldl_min_le_mem ys y0 y h, hmx ▸ mem_le_foldl_max ys y0 y h⟩

theorem title_filter_empty (rows : List MovieRecord) :
    title_filter "" rows = rows := rfl

theorem genre_filter_none (c : MovieCollection) (rows : List MovieRecord) :
    genre_filter c [] rows = rows := by
  unfold genre_filter
  simp

theorem year_filter_sublist (c : MovieCollection) (lo hi : Int) :
    List.Sublist (year_filter c lo hi) c.records := by
  unfold year_filter
  split
  · exact List.filter_sublist c.records
  · exact List.Sublist.refl c.records

theorem genre_filter_sublist (c : MovieCollection) (selected : List String)
    (rows : List MovieRecord) :
    List.Sublist (genre_filter c selected rows) rows := by
  unfold genre_filter
  split
  · exact List.filter_sublist rows
  · exact List.Sublist.refl rows

theorem title_filter_sublist (term : String) (rows : List MovieRecord) :
    List.Sublist (title_filter term rows) rows := by
  unfold title_filter
  split
  · exact List.Sublist.refl rows
  · exact List.filter_sublist rows

/-! ### Claim theorems -/

/-- C1: for every collection and criteria, the filter pipeline returns an
order-preserving subsequence of the collection (so each of its records is a
record of the collection, in the same relative order), and an empty
collection yields an empty view regardless of the criteria. -/
theorem filtered_view_sublist (c : MovieCollection) (lo hi : Int)
    (selected : List String) (term : String) :
    List.Sublist (filtered_movies c lo hi selected term) c.records ∧
    (c.records = [] → filtered_movies c lo hi selected term = []) := by
  have h : List.Sublist (filtered_movies c lo hi selected term) c.records :=
    ((title_filter_sublist term _).trans
      (genre_filter_sublist c selected _)).trans (year_filter_sublist c lo hi)
  refine ⟨h, fun he => ?_⟩
  rw [he] at h
  exact List.sublist_nil.mp h

theorem filtered_view_sublist_witness :
    filtered_movies
      { records := [], hasYearCol := true, hasGenresCol := true }
      1990 1999 ["Drama"] "god" = [] :=
  (filtered_view_sublist
    { records := [], hasYearCol := true, hasGenresCol := true }
    1990 1999 ["Drama"] "god").2 rfl

/-- C2: on any fetch or parse failure, load_movie_data does not raise (it is
a total function) and returns exactly the fixed 10-record fallback
collection, whose records all have title, year and a non-empty genre list
populated and no cast, and which contains the record titled
"The Godfather" with year 1972. -/
theorem load_failure_fallback :
    load_movie_data FetchResult.failure = fallbackMovies ∧
    fallbackMovies.records.length = 10 ∧
    (fallbackMovies.records.all fun r =>
      r.title.isSome && r.year.isSome &&
      (match r.genres with
        | GVal.list (_ :: _) => true
        | _ => false) &&
      r.cast.isNone) = true ∧
    (fallbackMovies.records.any fun r =>
      r.title == some "The Godfather" && r.year == some 1972) = true := by
  refine ⟨rfl, rfl, ?_, ?_⟩ <;> decide

/-- C3: with an empty selected-genre set the genre filter is a no-op; with a
non-empty selection (necessarily drawn from the multiselect options
`all_genres`, which requires the genres column to exist) a record passes
iff its genres cell is list-typed and shares at least one element, by exact
equality, with the selection; absent or non-list genres are excluded. -/
theorem genre_filter_spec (c : MovieCollection) (selected : List String)
    (rows : List MovieRecord) :
    (selected = [] → genre_filter c selected rows = rows) ∧
    (c.hasGenresCol = true → selected ≠ [] →
      (∀ g ∈ selected, g ∈ all_genres c) →
      ∀ r, r ∈ genre_filter c selected rows ↔
        r ∈ rows ∧ ∃ gs, r.genres = GVal.list gs ∧ ∃ g ∈ selected, g ∈ gs) := by
  constructor
  · intro h
    subst h
    exact genre_filter_none c rows
  · intro hcol hne hsub r
    have hg0 : all_genres c ≠ [] := by
      rcases List.exists_mem_of_ne_nil selected hne with ⟨g, hg⟩
      exact List.ne_nil_of_mem (hsub g hg)
    have hcond : (c.hasGenresCol && !(all_genres c).isEmpty &&
        !selected.isEmpty) = true := by
      rw [hcol]
      simp [List.isEmpty_iff, hg0, hne]
    unfold genre_filter
    rw [hcond]
    simp only [if_true, List.mem_filter]
    constructor
    · rintro ⟨hr, hp⟩
      refine ⟨hr, ?_⟩
      unfold genrePred at hp
      cases hgv : r.genres with
      | absent => rw [hgv] at hp; cases hp
      | nonList => rw [hgv] at hp; cases hp
      | list gs =>
        rw [hgv] at hp
        rcases List.any_eq_true.mp hp with ⟨g, hgsel, hgin⟩
        exact ⟨gs, rfl, g, hgsel, List.elem_iff.mp hgin⟩
    · rintro ⟨hr, gs, hgv, g, hgsel, hgin⟩
      refine ⟨hr, ?_⟩
      unfold genrePred
      rw [hgv]
      exact List.any_eq_true.mpr ⟨g, hgsel, List.elem_iff.mpr hgin⟩

theorem genre_filter_spec_witness :
    mkFallbackRow "The Matrix" 1999 ["Action", "Sci-Fi"] ∈
      genre_filter fallbackMovies ["Sci-Fi"] fallbackMovies.records :=
  ((genre_filter_spec fallbackMovies ["Sci-Fi"] fallbackMovies.records).2
      rfl (by decide) (by decide)
      (mkFallbackRow "The Matrix" 1999 ["Action", "Sci-Fi"])).mpr
    ⟨by decide, ["Action", "Sci-Fi"], rfl, "Sci-Fi", by decide, by decide⟩

theorem reMatchHere_lit (pat hay : List Char) :
    reMatchHere (pat.map RTok.lit) hay =
      startsWithChars (hay.map Char.toLower) (pat.map Char.toLower) := by
  induction pat generalizing hay with
  | nil => cases hay <;> rfl
  | cons p ps ih =>
    cases hay with
    | nil => rfl
    | cons c cs =>
      simp only [List.map_cons, reMatchHere, startsWithChars, rtokMatch, ih]

theorem reSearch_lit (pat hay : List Char) :
    reSearch (pat.map RTok.lit) hay =
      containsChars (hay.map Char.toLower) (pat.map Char.toLower) := by
  induction hay with
  | nil => cases pat <;> rfl
  | cons c cs ih =>
    simp only [List.map_cons, reSearch, containsChars, ih, reMatchHere_lit]

theorem reCompile_no_meta (pat : String)
    (h : pat.data.all (fun c => !reMetachars.contains c) = true) :
    reCompile pat = ReCompileResult.compiled (pat.data.map RTok.lit) := by
  have hcond :
      pat.data.all (fun c => c == '.' || !reMetachars.contains c) = true := by
    rw [List.all_eq_true] at h ⊢
    intro c hc
    rw [h c hc]
    exact Bool.or_true _
  unfold reCompile
  rw [if_pos hcond]
  congr 1
  refine List.map_congr_left ?_
  intro c hc
  have hnm : reMetachars.contains c = false := by
    have hb := List.all_eq_true.mp h c hc
    simpa using hb
  have hdot : (c == '.') = false := by
    rcases hck : c == '.' with _ | _
    · rfl
    · have hcd : c = '.' := by simpa using hck
      rw [hcd] at hnm
      exact absurd hnm (by decide)
  rw [hdot]
  rfl

/-- C4 counterexample: line 91 hands the user search term to pandas
`str.contains` with the default regex=True, so the term is a regular
expression, not a literal substring. The term "a.c" keeps the record
titled "abc" although "abc" does not contain "a.c" as a substring ('.'
matches the letter b), refuting the claimed iff; and the term "(" is an
invalid pattern on which re.compile raises re.error, refuting "excluded
without error" for non-empty terms. -/
theorem title_regex_divergence :
    title_filter_re "a.c" [abcTitled] = some [abcTitled] ∧
    containsCI "abc" "a.c" = false ∧
    title_filter_re "(" [abcTitled] = none := by
  decide

/-- C4 (amended): with an empty search term the title stage is a no-op;
with a non-empty term free of regular-expression metacharacters the stage
completes without raising and a record passes iff its title is present and
contains the term case-insensitively, a record with an absent title being
excluded without error (for terms with metacharacters the term acts as a
regex and an invalid pattern raises re.error, per the counterexample). -/
theorem title_filter_re_spec (term : String) (rows : List MovieRecord) :
    (term = "" → title_filter_re term rows = some rows) ∧
    (term ≠ "" → term.data.all (fun c => !reMetachars.contains c) = true →
      title_filter_re term rows = some (rows.filter (titlePred term)) ∧
      (∀ r, r ∈ rows.filter (titlePred term) ↔
        r ∈ rows ∧ ∃ t, r.title = some t ∧ containsCI t term = true)) := by
  constructor
  · intro h
    subst h
    rfl
  · intro hne hfrag
    have hemp : term.isEmpty = false := by
      rcases h : term.isEmpty with _ | _
      · rfl
      · exact absurd ((String.isEmpty_iff term).mp h) hne
    constructor
    · unfold title_filter_re
      rw [hemp]
      simp only [Bool.false_eq_true, if_false]
      rw [reCompile_no_meta term hfrag]
      refine congrArg some (List.filter_congr ?_)
      intro r hr
      unfold titlePred
      cases r.title with
      | none => rfl
      | some t =>
        show reSearch (term.data.map RTok.lit) t.data = containsCI t term
        unfold containsCI
        exact reSearch_lit term.data t.data
    · intro r
      simp only [List.mem_filter]
      constructor
      · rintro ⟨hr, hp⟩
        refine ⟨hr, ?_⟩
        unfold titlePred at hp
        cases ht : r.title with
        | none => rw [ht] at hp; cases hp
        | some t => rw [ht] at hp; exact ⟨t, rfl, hp⟩
      · rintro ⟨hr, t, ht, hc⟩
        refine ⟨hr, ?_⟩
        unfold titlePred
        rw [ht]
        exact hc

theorem title_filter_re_spec_witness :
    title_filter_re "god" fallbackMovies.records =
      some (fallbackMovies.records.filter (titlePred "god")) :=
  ((title_filter_re_spec "god" fallbackMovies.records).2
    (by decide) (by decide)).1

/-- A collection whose `year` column exists, with one present year and one
NaN year cell (as arises from an explicit null in the source JSON). -/
def mixedYearCollection : MovieCollection :=
  { records :=
      [ { title := some "A", year := some 2000, genres := GVal.absent, cast := none }
      , { title := some "B", year := none, genres := GVal.absent, cast := none } ]
  , hasYearCol := true
  , hasGenresCol := false }

/-- C5 counterexample: on a collection with a `year` column whose dataset
min and max are both 2000, filtering by that full range does not return
the full collection — the record whose year cell is NaN is dropped. -/
theorem full_range_not_identity :
    yearBounds mixedYearCollection.records = some (2000, 2000) ∧
    filtered_movies mixedYearCollection 2000 2000 [] "" ≠
      mixedYearCollection.records := by
  decide

/-- C5 (amended): for every collection with a `year` column in which every
record has a present year, filtering by the dataset's own min/max year
range, with no genre or title criteria active, returns the full collection
unchanged. -/
theorem full_range_identity (c : MovieCollection) (mn mx : Int)
    (hcol : c.hasYearCol = true)
    (hall : ∀ r ∈ c.records, r.year.isSome = true)
    (hb : yearBounds c.records = some (mn, mx)) :
    filtered_movies c mn mx [] "" = c.records := by
  unfold filtered_movies
  rw [title_filter_empty, genre_filter_none]
  unfold year_filter
  rw [hcol]
  simp only [if_true]
  rw [List.filter_eq_self]
  intro r hr
  rcases Option.isSome_iff_exists.mp (hall r hr) with ⟨y, hy⟩
  have hmem : y ∈ c.records.filterMap (fun r => r.year) :=
    List.mem_filterMap.mpr ⟨r, hr, hy⟩
  rcases yearBounds_bounds_mem c.records mn mx y hb hmem with ⟨h1, h2⟩
  unfold yearPred
  rw [hy]
  simp [h1, h2]

theorem full_range_identity_witness :
    filtered_movies fallbackMovies 1972 2014 [] "" = fallbackMovies.records :=
  full_range_identity fallbackMovies 1972 2014 rfl (by decide) (by decide)

/-- C6: the random pick returns the empty-selection warning (and no record)
iff the filtered view is empty; on a non-empty view it returns a record of
the view; on a single-record view it returns exactly that record. -/
theorem random_movie_spec (view : List MovieRecord) (k : Nat) :
    (random_movie view k = PickResult.emptyWarning ↔ view = []) ∧
    (view ≠ [] →
      ∃ r, random_movie view k = PickResult.movie r ∧ r ∈ view) ∧
    (∀ r0, view = [r0] → random_movie view k = PickResult.movie r0) := by
  refine ⟨?_, ?_, ?_⟩
  · constructor
    · intro h
      by_contra hne
      have hpos : 0 < view.length := List.length_pos.mpr hne
      unfold random_movie at h
      rw [dif_pos hpos] at h
      cases h
    · intro h
      subst h
      rfl
  · intro hne
    have hpos : 0 < view.length := List.length_pos.mpr hne
    refine ⟨view.get ⟨k % view.length, Nat.mod_lt k hpos⟩, ?_, List.get_mem view _ _⟩
    unfold random_movie
    rw [dif_pos hpos]
  · intro r0 h
    subst h
    simp [random_movie, Nat.mod_one]

theorem random_movie_spec_witness :
    random_movie [mkFallbackRow "The Godfather" 1972 ["Crime", "Drama"]] 7 =
      PickResult.movie (mkFallbackRow "The Godfather" 1972 ["Crime", "Drama"]) :=
  (random_movie_spec [mkFallbackRow "The Godfather" 1972 ["Crime", "Drama"]] 7).2.2
    (mkFallbackRow "The Godfather" 1972 ["Crime", "Drama"]) rfl

/-- C8: on the 10-record fallback collection, the year filter with range
1990-1999 and no other active criteria yields exactly 6 records, whose
years are, in order, 1994, 1994, 1994, 1999, 1990 and 1991. -/
theorem fallback_nineties_filter :
    (filtered_movies fallbackMovies 1990 1999 [] "").length = 6 ∧
    (filtered_movies fallbackMovies 1990 1999 [] "").map (fun r => r.year) =
      [some 1994, some 1994, some 1994, some 1999, some 1990, some 1991] := by
  decide

theorem sumCounts_bumpCount (l : List (String × Nat)) (g : String) :
    sumCounts (bumpCount l g) = sumCounts l + 1 := by
  induction l with
  | nil => rfl
  | cons p t ih =>
    obtain ⟨k, n⟩ := p
    by_cases h : k = g
    · simp [bumpCount, h, sumCounts]
      omega
    · simp only [bumpCount, if_neg h, sumCounts, List.map_cons, List.sum_cons] at ih ⊢
      omega

theorem sumCounts_foldl_bumpCount (gs : List String) (acc : List (String × Nat)) :
    sumCounts (gs.foldl bumpCount acc) = sumCounts acc + gs.length := by
  induction gs generalizing acc with
  | nil => rfl
  | cons g gs ih =>
    rw [List.foldl_cons, ih (bumpCount acc g), sumCounts_bumpCount]
    simp only [List.length_cons]
    omega

theorem sumCounts_records_fold (rows : List MovieRecord)
    (acc : List (String × Nat)) (n : Nat) (h : sumCounts acc = n) :
    sumCounts (rows.foldl
        (fun acc r =>
          match r.genres with
          | GVal.list gs => gs.foldl bumpCount acc
          | _ => acc)
        acc) =
      rows.foldl
        (fun n r =>
          match r.genres with
          | GVal.list gs => n + gs.length
          | _ => n)
        n := by
  induction rows generalizing acc n with
  | nil => simpa using h
  | cons r rows ih =>
    rw [List.foldl_cons, List.foldl_cons]
    cases hg : r.genres with
    | absent => exact ih acc n h
    | nonList => exact ih acc n h
    | list gs =>
      refine ih (gs.foldl bumpCount acc) (n + gs.length) ?_
      rw [sumCounts_foldl_bumpCount, h]

/-- C7: over the full collection (whenever its `genres` column exists, which
is when the histogram is computed), the genre frequency counts, before
truncation to the top 10, sum across all labels to the total number of
(record, genre) pairs: the sum over list-typed `genres` cells of their
length. -/
theorem genre_counts_sum (c : MovieCollection) (h : c.hasGenresCol = true) :
    sumCounts (genre_counts c) = totalGenrePairs c := by
  unfold genre_counts totalGenrePairs
  rw [h]
  simp only [if_true]
  exact sumCounts_records_fold c.records [] 0 rfl

theorem genre_counts_sum_witness :
    sumCounts (genre_counts fallbackMovies) = totalGenrePairs fallbackMovies :=
  genre_counts_sum fallbackMovies rfl

/-- A collection whose `year` column exists but holds only NaN cells (as
arises from explicit nulls in the source JSON). -/
def allNaNYearCollection : MovieCollection :=
  { records := [{ title := some "A", year := none, genres := GVal.absent, cast := none }]
  , hasYearCol := true
  , hasGenresCol := false }

/-- C9 counterexample: on a collection that possesses a `year` column but in
which no record has a present year, deriving the slider bounds raises
(pandas min/max give NaN and `int(NaN)` raises ValueError), so the sidebar
year section does not complete: the claim fails for this collection. -/
theorem year_step_raises_on_all_nan :
    allNaNYearCollection.hasYearCol = true ∧
    sidebarYearStep allNaNYearCollection 0 3000 = none := by
  decide

/-- C9 (amended): missing optional fields on individual records never cause
an error: for every collection possessing a `year` column in which at least
one record has a present year, deriving the slider bounds and running the
year filter completes without raising (and the remaining filter stages are
total functions), so the condition is not fatal. -/
theorem year_step_total (c : MovieCollection) (lo hi : Int)
    (hcol : c.hasYearCol = true)
    (hx : ∃ r ∈ c.records, r.year.isSome = true) :
    ∃ rows, sidebarYearStep c lo hi = some rows := by
  obtain ⟨r, hr, hy⟩ := hx
  obtain ⟨y, hy'⟩ := Option.isSome_iff_exists.mp hy
  have hmem : y ∈ c.records.filterMap (fun r => r.year) :=
    List.mem_filterMap.mpr ⟨r, hr, hy'⟩
  unfold sidebarYearStep
  rw [hcol]
  simp only [if_true]
  unfold yearBounds
  cases hl : c.records.filterMap (fun r => r.year) with
  | nil => rw [hl] at hmem; cases hmem
  | cons y0 ys => exact ⟨c.records.filter (yearPred lo hi), rfl⟩

theorem year_step_total_witness :
    ∃ rows, sidebarYearStep fallbackMovies 1990 1999 = some rows :=
  year_step_total fallbackMovies 1990 1999 rfl
    ⟨mkFallbackRow "The Shawshank Redemption" 1994 ["Drama"], by decide, rfl⟩

/-- C10: the filter pipeline is deterministic: two runs of the script on
the same collection and equal criteria produce identical filtered views,
whatever draw the random source supplies on each run — the view depends
only on the collection and the criteria. -/
theorem pipeline_deterministic (c : MovieCollection) (cr1 cr2 : Criteria)
    (k1 k2 : Nat) (h : cr1 = cr2) :
    (appRun c cr1 k1).1 = (appRun c cr2 k2).1 := by
  subst h
  rfl

theorem pipeline_deterministic_witness :
    (appRun fallbackMovies ⟨1990, 1999, ["Drama"], "the"⟩ 0).1 =
      (appRun fallbackMovies ⟨1990, 1999, ["Drama"], "the"⟩ 7).1 :=
  pipeline_deterministic fallbackMovies ⟨1990, 1999, ["Drama"], "the"⟩
    ⟨1990, 1999, ["Drama"], "the"⟩ 0 7 rfl
